import Mathlib

/-!
# Shallow embedding of `server.ts` (task management backend)

The server keeps two pieces of shared state: a list of user records
(persisted to `users.json`, read fully and rewritten fully on each
mutation) and an in-memory list of tasks.  Each HTTP handler is embedded
as a pure function from the state and the parsed request to an HTTP
response together with the successor state.
-/

set_option autoImplicit false

namespace TaskServer

/-- A task record, mirroring `interface Task` in `server.ts`.  Fields that
the create handler copies from the (unvalidated) JSON body may be absent
at runtime, so they are `Option`-valued; `status` is set by the server. -/
structure Task where
  id : Int
  title : Option String
  description : Option String
  creationDate : Nat
  dueDate : Option String
  assignedTo : Option String
  category : Option String
  status : String
deriving Repr, DecidableEq

/-- A stored user record, as serialized to `users.json`: the `password`
field holds the bcrypt hash. -/
structure UserRec where
  username : String
  password : String
deriving Repr, DecidableEq

/-- The server's shared state: the on-disk user list and the in-memory
task list. -/
structure SysState where
  users : List UserRec
  tasks : List Task
deriving Repr, DecidableEq

/-- The state of a freshly started server: `tasks` starts empty, and we
take the user store to be empty as well (`readUsers` returns `[]` when
the file is missing). -/
def emptySys : SysState := { users := [], tasks := [] }

/-- Response bodies the handlers produce. -/
inductive RespBody where
  | msg (m : String)
  | task (t : Task)
  | tasks (l : List Task)
  | empty
deriving Repr, DecidableEq

/-- An HTTP response: status code plus JSON body. -/
structure HttpResponse where
  status : Nat
  body : RespBody
deriving Repr, DecidableEq

/-- Modelled from the spec: `bcrypt.hashSync` (the bcrypt library is a
dependency, not part of `src/`).  The spec describes a salted one-way
hash verified by recomputation; we model it as a concrete injective
tagging of the password, which preserves exactly the interface the
handlers rely on. -/
def hashSync (password : String) (rounds : Nat) : String :=
  "bcrypt10$" ++ toString rounds ++ "$" ++ password

/-- Modelled from the spec: `bcrypt.compareSync`, verification by
recomputation against [[hashSync]] at the cost factor the server uses. -/
def compareSync (password hash : String) : Bool :=
  hash == hashSync password 10

/-- Handler for `POST /register`.  The request body's `username`/`password` fields are
`Option`-valued (absent fields destructure to `undefined`); the guard
`!username || !password` rejects both absent and empty-string values. -/
def postRegister (s : SysState) (username password : Option String) :
    HttpResponse × SysState :=
  match username, password with
  | some u, some p =>
    if u == "" || p == "" then
      ({ status := 400, body := .msg "Username and password are required" }, s)
    else if s.users.any (fun r => r.username == u) then
      ({ status := 409, body := .msg "Username already exists" }, s)
    else
      ({ status := 201, body := .msg "User registered successfully" },
       { s with users := s.users ++ [{ username := u, password := hashSync p 10 }] })
  | _, _ =>
    ({ status := 400, body := .msg "Username and password are required" }, s)

/-- Handler for `POST /login`. -/
def postLogin (s : SysState) (username password : Option String) :
    HttpResponse × SysState :=
  match username, password with
  | some u, some p =>
    if u == "" || p == "" then
      ({ status := 400, body := .msg "Username and password are required" }, s)
    else
      match s.users.find? (fun r => r.username == u) with
      | none => ({ status := 401, body := .msg "Invalid username or password" }, s)
      | some user =>
        if ! compareSync p user.password then
          ({ status := 401, body := .msg "Invalid username or password" }, s)
        else
          ({ status := 200, body := .msg "Login successful" }, s)
  | _, _ =>
    ({ status := 400, body := .msg "Username and password are required" }, s)

/-- The JSON body accepted by `POST /task`: the handler destructures
exactly these five fields; absent ones come out as `undefined`. -/
structure CreateBody where
  title : Option String := none
  description : Option String := none
  dueDate : Option String := none
  assignedTo : Option String := none
  category : Option String := none
deriving Repr, DecidableEq

/-- Handler for `POST /task`: assigns `id = tasks.length + 1`, stamps `creationDate`
with the current time (passed in as `now`), forces `status` to
`"Pending"`, and appends.  Always responds 201 with the created task. -/
def postTask (s : SysState) (b : CreateBody) (now : Nat) :
    HttpResponse × SysState :=
  let newTask : Task :=
    { id := (s.tasks.length : Int) + 1
      title := b.title
      description := b.description
      creationDate := now
      dueDate := b.dueDate
      assignedTo := b.assignedTo
      category := b.category
      status := "Pending" }
  ({ status := 201, body := .task newTask }, { s with tasks := s.tasks ++ [newTask] })

/-- The lookup `tasks.find(task => task.id === taskId)`: first task with the given id. -/
def findTask (ts : List Task) (taskId : Int) : Option Task :=
  ts.find? (fun t => t.id == taskId)

/-- Handler for `GET /task/:id`. -/
def getTask (s : SysState) (taskId : Int) : HttpResponse × SysState :=
  match findTask s.tasks taskId with
  | some t => ({ status := 200, body := .task t }, s)
  | none => ({ status := 404, body := .msg "Task not found" }, s)

/-- A `PUT /task/:id` JSON body: any subset of the task's fields may be
supplied; supplied keys overwrite on spread-merge, absent keys do not. -/
structure UpdateBody where
  id : Option Int := none
  title : Option String := none
  description : Option String := none
  creationDate : Option Nat := none
  dueDate : Option String := none
  assignedTo : Option String := none
  category : Option String := none
  status : Option String := none
deriving Repr, DecidableEq

/-- The spread merge `{ ...task, ...body }`: each key present in the body
overwrites the task's value, absent keys retain the prior value. -/
def mergeTask (t : Task) (b : UpdateBody) : Task :=
  { id := b.id.getD t.id
    title := match b.title with | some x => some x | none => t.title
    description := match b.description with | some x => some x | none => t.description
    creationDate := b.creationDate.getD t.creationDate
    dueDate := match b.dueDate with | some x => some x | none => t.dueDate
    assignedTo := match b.assignedTo with | some x => some x | none => t.assignedTo
    category := match b.category with | some x => some x | none => t.category
    status := b.status.getD t.status }

/-- The combination `findIndex` + `tasks[taskIndex] = merged`: replace the first task
whose id matches, returning the merged record when one was found. -/
def updateList (ts : List Task) (taskId : Int) (b : UpdateBody) :
    Option Task × List Task :=
  match ts with
  | [] => (none, [])
  | t :: rest =>
    if t.id == taskId then
      (some (mergeTask t b), mergeTask t b :: rest)
    else
      let (r, rest') := updateList rest taskId b
      (r, t :: rest')

/-- Handler for `PUT /task/:id`. -/
def putTask (s : SysState) (taskId : Int) (b : UpdateBody) :
    HttpResponse × SysState :=
  match updateList s.tasks taskId b with
  | (some merged, ts') => ({ status := 200, body := .task merged }, { s with tasks := ts' })
  | (none, _) => ({ status := 404, body := .msg "Task not found" }, s)

/-- The combination `findIndex` + `splice(taskIndex, 1)`: remove the first task whose id
matches, reporting whether one was found. -/
def deleteList (ts : List Task) (taskId : Int) : Bool × List Task :=
  match ts with
  | [] => (false, [])
  | t :: rest =>
    if t.id == taskId then
      (true, rest)
    else
      let (r, rest') := deleteList rest taskId
      (r, t :: rest')

/-- Handler for `DELETE /task/:id`: 204 with no body on success (`res.sendStatus(204)`). -/
def deleteTask (s : SysState) (taskId : Int) : HttpResponse × SysState :=
  match deleteList s.tasks taskId with
  | (true, ts') => ({ status := 204, body := .empty }, { s with tasks := ts' })
  | (false, _) => ({ status := 404, body := .msg "Task not found" }, s)

/-- Express query-string truthiness: a parameter is truthy when present
with a non-empty value (`?assignedTo=` parses to the empty string, which
is falsy, exactly like an absent parameter). -/
def truthy : Option String → Bool
  | none => false
  | some v => !(v == "")

/-- Handler for `GET /tasks`: sequential `filter` passes guarded by truthiness, then
the final `if (assignedTo || category)` choosing filtered vs. all. -/
def getTasks (s : SysState) (assignedTo category : Option String) :
    HttpResponse × SysState :=
  let filtered0 := s.tasks
  let filtered1 :=
    if truthy assignedTo then filtered0.filter (fun t => t.assignedTo == assignedTo)
    else filtered0
  let filtered2 :=
    if truthy category then filtered1.filter (fun t => t.category == category)
    else filtered1
  if truthy assignedTo || truthy category then
    ({ status := 200, body := .tasks filtered2 }, s)
  else
    ({ status := 200, body := .tasks s.tasks }, s)

/-- A Task Registry operation, for reasoning about operation sequences. -/
inductive Op where
  | create (b : CreateBody) (now : Nat)
  | update (taskId : Int) (b : UpdateBody)
  | delete (taskId : Int)
deriving Repr, DecidableEq

/-- Apply one registry operation to the state. -/
def applyOp (s : SysState) : Op → SysState
  | .create b now => (postTask s b now).2
  | .update i b => (putTask s i b).2
  | .delete i => (deleteTask s i).2

/-- Run a sequence of registry operations from the empty registry. -/
def runOps (ops : List Op) : SysState := ops.foldl applyOp emptySys

/-- The list of task ids currently in the registry, in insertion order. -/
def idsOf (s : SysState) : List Int := s.tasks.map Task.id

/-- The id carried in a response body (0 if the body is not a task). -/
def respId (r : HttpResponse) : Int :=
  match r.body with
  | .task t => t.id
  | _ => 0

/-- The ids returned by a sequence of creates executed from state `s`,
in order. -/
def createdIdsFrom (s : SysState) : List (CreateBody × Nat) → List Int
  | [] => []
  | (b, now) :: rest =>
    respId (postTask s b now).1 :: createdIdsFrom (postTask s b now).2 rest

/-- The ids returned by a sequence of creates from a fresh server. -/
def createdIds (bs : List (CreateBody × Nat)) : List Int :=
  createdIdsFrom emptySys bs

/-- Run a sequence of creates from state `s`. -/
def runCreatesFrom (s : SysState) : List (CreateBody × Nat) → SysState
  | [] => s
  | (b, now) :: rest => runCreatesFrom (postTask s b now).2 rest

/-- Run a sequence of creates from a fresh server. -/
def runCreates (bs : List (CreateBody × Nat)) : SysState :=
  runCreatesFrom emptySys bs

/-- From the spec's words (C3): the tasks satisfying the conjunction of
the supplied filter clauses — `assignedTo == v` when that clause is
given, and `category == v` when that clause is given. -/
def specListFilter (assignedTo category : Option String) (ts : List Task) : List Task :=
  ts.filter (fun t =>
    (match assignedTo with | some v => t.assignedTo == some v | none => true) &&
    (match category with | some v => t.category == some v | none => true))

/-- A create body with every optional field absent. -/
def blankBody : CreateBody := {}

/-- Create twice, delete task 1, create again: the third create is
assigned `id = tasks.length + 1 = 2`, duplicating the surviving task. -/
def dupOps : List Op :=
  [Op.create blankBody 0, Op.create blankBody 0, Op.delete 1, Op.create blankBody 0]

/-- What C4 asserts of one update: `PUT /task/:id` on a registry whose
first task with id `i` is `t` answers 200 with the merged record `m`,
a subsequent `GET /task/:id` returns `m`, and the rest of the registry —
everything but that one position — is untouched. -/
def updGetOk (s : SysState) (i : Int) (t : Task) (b : UpdateBody) (m : Task) : Prop :=
  (putTask s i b).1 = { status := 200, body := .task m } ∧
  findTask ((putTask s i b).2).tasks i = some m ∧
  ∃ pre post, s.tasks = pre ++ t :: post ∧ (∀ u ∈ pre, (u.id == i) = false) ∧
    ((putTask s i b).2).tasks = pre ++ m :: post

/-! ## Generic lemmas about the list manipulations -/

theorem find?_append_of_none {α : Type} {p : α → Bool} :
    ∀ {l1 : List α} (l2 : List α), l1.find? p = none →
      (l1 ++ l2).find? p = l2.find? p := by
  intro l1
  induction l1 with
  | nil => intro l2 _; rfl
  | cons a l ih =>
    intro l2 h
    rw [List.find?_cons] at h
    cases hpa : p a with
    | true => rw [hpa] at h; exact absurd h (by simp)
    | false =>
      rw [hpa] at h
      rw [List.cons_append, List.find?_cons, hpa]
      exact ih l2 h

theorem findTask_found_decomp :
    ∀ (ts : List Task) (i : Int) (t : Task), findTask ts i = some t →
      ∃ pre post, ts = pre ++ t :: post ∧ (∀ u ∈ pre, (u.id == i) = false) ∧
        (t.id == i) = true := by
  intro ts
  induction ts with
  | nil => intro i t h; exact absurd h (by simp [findTask])
  | cons hd tl ih =>
    intro i t h
    rw [findTask, List.find?_cons] at h
    cases hht : (hd.id == i) with
    | true =>
      rw [hht] at h
      obtain rfl : hd = t := by simpa using h
      exact ⟨[], tl, rfl, by simp, hht⟩
    | false =>
      rw [hht] at h
      obtain ⟨pre, post, hdec, hpre, hti⟩ := ih i t h
      refine ⟨hd :: pre, post, by rw [hdec]; rfl, ?_, hti⟩
      intro u hu
      rcases List.mem_cons.1 hu with rfl | hu
      · exact hht
      · exact hpre u hu

theorem findTask_prepend (pre : List Task) (m : Task) (post : List Task) (i : Int)
    (hpre : ∀ u ∈ pre, (u.id == i) = false) (hm : (m.id == i) = true) :
    findTask (pre ++ m :: post) i = some m := by
  induction pre with
  | nil => simp [findTask, List.find?_cons, hm]
  | cons a l ih =>
    rw [List.cons_append, findTask, List.find?_cons, hpre a (by simp)]
    exact ih fun u hu => hpre u (List.mem_cons_of_mem a hu)

theorem noMatch_findTask (ts : List Task) (i : Int)
    (h : ∀ u ∈ ts, (u.id == i) = false) : findTask ts i = none := by
  rw [findTask, List.find?_eq_none]
  intro x hx
  simp [h x hx]

/-! ## C10: empty-string query values behave as absent filters -/

/-- C10: an empty-string `assignedTo` or `category` query value is falsy,
so it is treated exactly like an absent parameter, and `GET /tasks` with
only an empty-string clause returns the full collection. -/
theorem emptyString_filter_treated_absent :
    (∀ (s : SysState) (cq : Option String),
        getTasks s (some "") cq = getTasks s none cq) ∧
    (∀ (s : SysState) (aq : Option String),
        getTasks s aq (some "") = getTasks s aq none) ∧
    (∀ s : SysState,
        (getTasks s (some "") none).1 = { status := 200, body := .tasks s.tasks }) := by
  refine ⟨fun s cq => rfl, fun s aq => ?_, fun s => rfl⟩
  cases aq with
  | none => rfl
  | some v => simp only [getTasks, truthy]; rfl

/-! ## C8: missing request fields give 400 and leave all state untouched -/

/-- C8: when the `username` or the `password` field is absent from the
request body, both `POST /register` and `POST /login` answer 400 and
return the state — user list and task registry — unchanged. -/
theorem missing_field_400 (s : SysState) (u p : Option String)
    (h : u = none ∨ p = none) :
    postRegister s u p =
      ({ status := 400, body := .msg "Username and password are required" }, s) ∧
    postLogin s u p =
      ({ status := 400, body := .msg "Username and password are required" }, s) := by
  obtain rfl | rfl := h
  · cases p <;> exact ⟨rfl, rfl⟩
  · cases u <;> exact ⟨rfl, rfl⟩

/-- Witness for C8 at a concrete state and request. -/
theorem missing_field_400_witness :
    postRegister emptySys none (some "pw") =
      ({ status := 400, body := .msg "Username and password are required" }, emptySys) ∧
    postLogin emptySys none (some "pw") =
      ({ status := 400, body := .msg "Username and password are required" }, emptySys) :=
  missing_field_400 emptySys none (some "pw") (Or.inl rfl)

/-! ## C1 / C2: id assignment across operation sequences -/

theorem postTask_tasks_len (s : SysState) (b : CreateBody) (now : Nat) :
    ((postTask s b now).2).tasks.length = s.tasks.length + 1 := by
  simp [postTask]

theorem createdIdsFrom_lb :
    ∀ (bs : List (CreateBody × Nat)) (s : SysState) (x : Int),
      x ∈ createdIdsFrom s bs → (s.tasks.length : Int) < x := by
  intro bs
  induction bs with
  | nil => intro s x hx; exact absurd hx (by simp [createdIdsFrom])
  | cons hd tl ih =>
    intro s x hx
    obtain ⟨b, now⟩ := hd
    rw [createdIdsFrom] at hx
    rcases List.mem_cons.1 hx with rfl | hx
    · show (s.tasks.length : Int) < (s.tasks.length : Int) + 1
      omega
    · have := ih (postTask s b now).2 x hx
      rw [postTask_tasks_len] at this
      push_cast at this
      omega

theorem createdIdsFrom_pairwise :
    ∀ (bs : List (CreateBody × Nat)) (s : SysState),
      List.Pairwise (· < ·) (createdIdsFrom s bs) := by
  intro bs
  induction bs with
  | nil => intro s; exact List.Pairwise.nil
  | cons hd tl ih =>
    intro s
    obtain ⟨b, now⟩ := hd
    rw [createdIdsFrom, List.pairwise_cons]
    refine ⟨fun x hx => ?_, ih (postTask s b now).2⟩
    have := createdIdsFrom_lb tl (postTask s b now).2 x hx
    rw [postTask_tasks_len] at this
    show ((s.tasks.length : Int) + 1) < x
    push_cast at this
    omega

/-- C2: the ids handed out by any sequence of task creates from a fresh
server are pairwise strictly increasing — each create's returned id
exceeds every id returned by any previous create. -/
theorem createdIds_strictly_increasing (bs : List (CreateBody × Nat)) :
    List.Pairwise (· < ·) (createdIds bs) :=
  createdIdsFrom_pairwise bs emptySys

theorem idsOf_postTask (s : SysState) (b : CreateBody) (now : Nat) :
    idsOf (postTask s b now).2 = idsOf s ++ [(s.tasks.length : Int) + 1] := by
  simp [idsOf, postTask]

theorem idsOf_runCreatesFrom :
    ∀ (bs : List (CreateBody × Nat)) (s : SysState),
      idsOf (runCreatesFrom s bs) = idsOf s ++ createdIdsFrom s bs := by
  intro bs
  induction bs with
  | nil => intro s; simp [runCreatesFrom, createdIdsFrom]
  | cons hd tl ih =>
    intro s
    obtain ⟨b, now⟩ := hd
    rw [runCreatesFrom, createdIdsFrom, ih, idsOf_postTask]
    simp [respId, postTask]

/-- C1 (amended): every create assigns `id = current task count + 1`
(not max-so-far + 1); consequently, for sequences consisting of creates
only, the registry's ids are exactly the returned ids, pairwise distinct
and never reused.  (After a delete this fails: see the counterexample.) -/
theorem taskId_length_assignment :
    (∀ (s : SysState) (b : CreateBody) (now : Nat),
        idsOf (postTask s b now).2 = idsOf s ++ [(s.tasks.length : Int) + 1]) ∧
    (∀ bs : List (CreateBody × Nat),
        idsOf (runCreates bs) = createdIds bs ∧ (idsOf (runCreates bs)).Nodup) := by
  refine ⟨idsOf_postTask, fun bs => ?_⟩
  have h : idsOf (runCreates bs) = createdIds bs := by
    rw [runCreates, idsOf_runCreatesFrom]
    rfl
  refine ⟨h, ?_⟩
  rw [h]
  exact (createdIdsFrom_pairwise bs emptySys).imp ne_of_lt

/-- C1 counterexample: after create, create, delete 1, create, the
registry holds two distinct tasks that both carry id 2 — the third
create reused id 2 (current length 1 + 1) instead of max + 1 = 3. -/
theorem taskId_duplicate_after_delete :
    idsOf (runOps dupOps) = [2, 2] ∧ ¬ (idsOf (runOps dupOps)).Nodup := by
  decide

/-! ## C3: `GET /tasks` filtering -/

/-- A sample task assigned to `alice`. -/
def aliceTask : Task :=
  { id := 1, title := some "T", description := none, creationDate := 0,
    dueDate := none, assignedTo := some "alice", category := some "Work",
    status := "Pending" }

/-- A registry holding just [[aliceTask]]. -/
def oneTaskState : SysState := { users := [], tasks := [aliceTask] }

/-- C3 (amended): for filter clauses that are absent or carry a non-empty
value, `GET /tasks` answers 200 with exactly the tasks satisfying the
conjunction of the supplied clauses, kept in insertion order, and leaves
the state unchanged.  (A clause supplied as the empty string is instead
treated as absent: see the counterexample and C10.) -/
theorem getTasks_conjunction_of_nonempty_clauses (s : SysState) (aq cq : Option String)
    (ha : aq ≠ some "") (hc : cq ≠ some "") :
    getTasks s aq cq =
      ({ status := 200, body := .tasks (specListFilter aq cq s.tasks) }, s) := by
  cases aq with
  | none =>
    cases cq with
    | none =>
      simp [getTasks, truthy, specListFilter]
    | some c =>
      have hc' : (c == "") = false := by
        rcases hcc : c == "" with _ | _
        · rfl
        · exact absurd (by rw [beq_iff_eq.1 hcc]) hc
      simp [getTasks, truthy, hc', specListFilter]
  | some a =>
    have ha' : (a == "") = false := by
      rcases haa : a == "" with _ | _
      · rfl
      · exact absurd (by rw [beq_iff_eq.1 haa]) ha
    cases cq with
    | none =>
      simp [getTasks, truthy, ha', specListFilter]
    | some c =>
      have hc' : (c == "") = false := by
        rcases hcc : c == "" with _ | _
        · rfl
        · exact absurd (by rw [beq_iff_eq.1 hcc]) hc
      have hcomm : (fun t : Task => (t.category == some c) && (t.assignedTo == some a))
          = fun t : Task => (t.assignedTo == some a) && (t.category == some c) :=
        funext fun t => Bool.and_comm _ _
      simp only [getTasks, truthy, ha', hc', Bool.not_false, Bool.or_self,
        if_true, List.filter_filter, specListFilter, hcomm]

/-- Witness for C3 at a concrete registry and a non-empty clause. -/
theorem getTasks_conjunction_witness :
    getTasks oneTaskState (some "alice") none =
      ({ status := 200,
         body := .tasks (specListFilter (some "alice") none oneTaskState.tasks) },
       oneTaskState) :=
  getTasks_conjunction_of_nonempty_clauses oneTaskState (some "alice") none
    (by decide) (by decide)

/-- C3 counterexample: with the clause `assignedTo == ""` supplied, the
handler returns the full collection — including [[aliceTask]], whose
`assignedTo` is `"alice"` — whereas the set of tasks satisfying the
supplied clause is empty.  The claim's "exactly the tasks satisfying the
conjunction of the supplied filter clauses" therefore fails. -/
theorem getTasks_emptyString_clause_cex :
    (getTasks oneTaskState (some "") none).1 =
      { status := 200, body := .tasks [aliceTask] } ∧
    specListFilter (some "") none oneTaskState.tasks = [] := by
  decide

/-! ## C5 / C6 / C7: credential store -/

theorem find?_of_any_false {α : Type} {p : α → Bool} {l : List α}
    (h : l.any p = false) : l.find? p = none :=
  List.find?_eq_none.2 (List.any_eq_false.1 h)

/-- C5 (amended): registering a non-empty username that is not yet in the
store, with a non-empty password, succeeds with 201, and logging in with
the same credentials against the resulting store succeeds with 200. -/
theorem register_then_login_succeeds (s : SysState) (u p : String)
    (hu : u ≠ "") (hp : p ≠ "")
    (hfree : s.users.any (fun r => r.username == u) = false) :
    (postRegister s (some u) (some p)).1.status = 201 ∧
    (postLogin (postRegister s (some u) (some p)).2 (some u) (some p)).1.status
      = 200 := by
  have hu' : (u == "") = false := by
    rcases huu : u == "" with _ | _
    · rfl
    · exact absurd (beq_iff_eq.1 huu) hu
  have hp' : (p == "") = false := by
    rcases hpp : p == "" with _ | _
    · rfl
    · exact absurd (beq_iff_eq.1 hpp) hp
  have hreg : postRegister s (some u) (some p) =
      ({ status := 201, body := .msg "User registered successfully" },
       { s with users := s.users ++ [{ username := u, password := hashSync p 10 }] }) := by
    simp [postRegister, hu', hp', hfree]
  refine ⟨by rw [hreg], ?_⟩
  rw [hreg]
  have hfind : List.find? (fun r : UserRec => r.username == u)
      (s.users ++ [({ username := u, password := hashSync p 10 } : UserRec)])
      = some ({ username := u, password := hashSync p 10 } : UserRec) := by
    rw [find?_append_of_none _ (find?_of_any_false hfree)]
    simp [List.find?_cons]
  simp only [postLogin, hu', hp', Bool.or_self, Bool.false_or, if_false,
    Bool.if_false_left]
  rw [hfind]
  simp [compareSync]

/-- Witness for C5: fresh store, register `alice`/`pw`, then log in. -/
theorem register_then_login_witness :
    (postRegister emptySys (some "alice") (some "pw")).1.status = 201 ∧
    (postLogin (postRegister emptySys (some "alice") (some "pw")).2
        (some "alice") (some "pw")).1.status = 200 :=
  register_then_login_succeeds emptySys "alice" "pw"
    (by decide) (by decide) (by decide)

/-- C5 counterexample: the empty string is a username the empty store
does not contain, and `"pw"` is a non-empty password, yet registration
answers 400 (validation rejects the falsy username), not 201. -/
theorem register_empty_username_cex :
    (postRegister emptySys (some "") (some "pw")).1.status = 400 ∧
    (postRegister emptySys (some "") (some "pw")).1.status ≠ 201 := by
  decide

/-- A store holding `alice` with the hash of `"pw"`. -/
def aliceStore : SysState :=
  { users := [{ username := "alice", password := hashSync "pw" 10 }], tasks := [] }

/-- C6 (amended): with non-empty request fields, a login whose username
matches a stored record but whose password fails hash verification, and
a login whose username matches no record, produce the very same response:
401 with body "Invalid username or password", the state untouched. -/
theorem login_failures_indistinguishable (s : SysState) (u p u2 p2 : String)
    (rec : UserRec)
    (hu : u ≠ "") (hp : p ≠ "") (hu2 : u2 ≠ "") (hp2 : p2 ≠ "")
    (hfind : s.users.find? (fun r => r.username == u) = some rec)
    (hwrong : compareSync p rec.password = false)
    (hunknown : s.users.find? (fun r => r.username == u2) = none) :
    postLogin s (some u) (some p) =
      ({ status := 401, body := .msg "Invalid username or password" }, s) ∧
    postLogin s (some u2) (some p2) =
      ({ status := 401, body := .msg "Invalid username or password" }, s) ∧
    postLogin s (some u) (some p) = postLogin s (some u2) (some p2) := by
  have hu' : (u == "") = false := by
    rcases huu : u == "" with _ | _
    · rfl
    · exact absurd (beq_iff_eq.1 huu) hu
  have hp' : (p == "") = false := by
    rcases hpp : p == "" with _ | _
    · rfl
    · exact absurd (beq_iff_eq.1 hpp) hp
  have hu2' : (u2 == "") = false := by
    rcases huu : u2 == "" with _ | _
    · rfl
    · exact absurd (beq_iff_eq.1 huu) hu2
  have hp2' : (p2 == "") = false := by
    rcases hpp : p2 == "" with _ | _
    · rfl
    · exact absurd (beq_iff_eq.1 hpp) hp2
  have h1 : postLogin s (some u) (some p) =
      ({ status := 401, body := .msg "Invalid username or password" }, s) := by
    simp [postLogin, hu', hp', hfind, hwrong]
  have h2 : postLogin s (some u2) (some p2) =
      ({ status := 401, body := .msg "Invalid username or password" }, s) := by
    simp [postLogin, hu2', hp2', hunknown]
  exact ⟨h1, h2, by rw [h1, h2]⟩

/-- Witness for C6: wrong password for `alice` vs. unknown user `bob`. -/
theorem login_failures_indistinguishable_witness :
    postLogin aliceStore (some "alice") (some "nope") =
      ({ status := 401, body := .msg "Invalid username or password" }, aliceStore) ∧
    postLogin aliceStore (some "bob") (some "pw") =
      ({ status := 401, body := .msg "Invalid username or password" }, aliceStore) ∧
    postLogin aliceStore (some "alice") (some "nope") =
      postLogin aliceStore (some "bob") (some "pw") :=
  login_failures_indistinguishable aliceStore "alice" "nope" "bob" "pw"
    { username := "alice", password := hashSync "pw" 10 }
    (by decide) (by decide) (by decide) (by decide)
    (by decide) (by decide) (by decide)

/-- C6 counterexample: the empty string is a wrong password for `alice`
(it fails hash verification), yet logging in with it answers 400, not
the claimed 401. -/
theorem login_empty_password_cex :
    compareSync "" (hashSync "pw" 10) = false ∧
    (postLogin aliceStore (some "alice") (some "")).1.status = 400 ∧
    (postLogin aliceStore (some "alice") (some "")).1.status ≠ 401 := by
  decide

/-- C7 (amended): registering a non-empty username already present in
the store, with any non-empty password, answers 409 and leaves the whole
state (user list and task registry) unchanged. -/
theorem register_duplicate_conflict (s : SysState) (u p : String)
    (hu : u ≠ "") (hp : p ≠ "")
    (hdup : s.users.any (fun r => r.username == u) = true) :
    postRegister s (some u) (some p) =
      ({ status := 409, body := .msg "Username already exists" }, s) := by
  have hu' : (u == "") = false := by
    rcases huu : u == "" with _ | _
    · rfl
    · exact absurd (beq_iff_eq.1 huu) hu
  have hp' : (p == "") = false := by
    rcases hpp : p == "" with _ | _
    · rfl
    · exact absurd (beq_iff_eq.1 hpp) hp
  simp [postRegister, hu', hp', hdup]

/-- Witness for C7: re-registering `alice` with a different password. -/
theorem register_duplicate_conflict_witness :
    postRegister aliceStore (some "alice") (some "other") =
      ({ status := 409, body := .msg "Username already exists" }, aliceStore) :=
  register_duplicate_conflict aliceStore "alice" "other"
    (by decide) (by decide) (by decide)

/-- C7 counterexample: `alice` is already in the store, yet registering
her with the empty password answers 400 — validation runs before the
duplicate check — not the claimed 409. -/
theorem register_duplicate_empty_password_cex :
    (postRegister aliceStore (some "alice") (some "")).1.status = 400 ∧
    (postRegister aliceStore (some "alice") (some "")).1.status ≠ 409 := by
  decide

/-! ## C4: partial update then fetch -/

theorem updateList_decomp (pre : List Task) (t : Task) (post : List Task)
    (i : Int) (b : UpdateBody)
    (hpre : ∀ u ∈ pre, (u.id == i) = false) (ht : (t.id == i) = true) :
    updateList (pre ++ t :: post) i b =
      (some (mergeTask t b), pre ++ mergeTask t b :: post) := by
  induction pre with
  | nil => simp [updateList, ht]
  | cons a l ih =>
    rw [List.cons_append, updateList]
    rw [hpre a (by simp)]
    simp only [Bool.false_eq_true, if_false]
    rw [ih fun u hu => hpre u (List.mem_cons_of_mem a hu)]
    rfl

theorem getTask_404 (s : SysState) (i : Int) (h : findTask s.tasks i = none) :
    getTask s i = ({ status := 404, body := .msg "Task not found" }, s) := by
  unfold getTask
  rw [h]

theorem deleteTask_404 (s : SysState) (i : Int)
    (h : deleteList s.tasks i = (false, s.tasks)) :
    deleteTask s i = ({ status := 404, body := .msg "Task not found" }, s) := by
  unfold deleteTask
  rw [h]

theorem updGet_general (s : SysState) (i : Int) (t : Task) (b : UpdateBody)
    (h : findTask s.tasks i = some t) (hb : b.id = none) :
    updGetOk s i t b (mergeTask t b) := by
  obtain ⟨pre, post, hdec, hpre, hti⟩ := findTask_found_decomp s.tasks i t h
  have hupd : updateList s.tasks i b =
      (some (mergeTask t b), pre ++ mergeTask t b :: post) := by
    rw [hdec]; exact updateList_decomp pre t post i b hpre hti
  have hput : putTask s i b =
      ({ status := 200, body := .task (mergeTask t b) },
       { s with tasks := pre ++ mergeTask t b :: post }) := by
    rw [putTask, hupd]
  have hmid : ((mergeTask t b).id == i) = true := by
    have : (mergeTask t b).id = t.id := by rw [mergeTask, hb]; rfl
    rw [this]; exact hti
  refine ⟨by rw [hput], ?_, pre, post, hdec, hpre, by rw [hput]⟩
  rw [hput]
  exact findTask_prepend pre (mergeTask t b) post i hpre hmid

/-- C4 (amended): on a registry whose (first) task with id `i` is `t`,
updating with a single supplied field other than `id` answers 200 with a
record identical to `t` except that the supplied field now holds the
supplied value; fetching id `i` afterwards returns exactly that record,
and every other task in the registry is unchanged.  (Supplying `id`
itself instead redirects the later fetch: see the counterexample.) -/
theorem update_single_field_then_get (s : SysState) (i : Int) (t : Task)
    (h : findTask s.tasks i = some t) :
    (∀ x, updGetOk s i t { title := some x } { t with title := some x }) ∧
    (∀ x, updGetOk s i t { description := some x } { t with description := some x }) ∧
    (∀ x, updGetOk s i t { dueDate := some x } { t with dueDate := some x }) ∧
    (∀ x, updGetOk s i t { assignedTo := some x } { t with assignedTo := some x }) ∧
    (∀ x, updGetOk s i t { category := some x } { t with category := some x }) ∧
    (∀ x, updGetOk s i t { status := some x } { t with status := x }) ∧
    (∀ x, updGetOk s i t { creationDate := some x } { t with creationDate := x }) :=
  ⟨fun x => updGet_general s i t { title := some x } h rfl,
   fun x => updGet_general s i t { description := some x } h rfl,
   fun x => updGet_general s i t { dueDate := some x } h rfl,
   fun x => updGet_general s i t { assignedTo := some x } h rfl,
   fun x => updGet_general s i t { category := some x } h rfl,
   fun x => updGet_general s i t { status := some x } h rfl,
   fun x => updGet_general s i t { creationDate := some x } h rfl⟩

/-- Witness for C4: set the `status` field of the only task to
`"Completed"` and observe the merged record, the fetch, and the frame. -/
theorem update_single_field_then_get_witness :
    findTask oneTaskState.tasks 1 = some aliceTask ∧
    updGetOk oneTaskState 1 aliceTask { status := some "Completed" }
      { aliceTask with status := "Completed" } :=
  ⟨by decide,
   (update_single_field_then_get oneTaskState 1 aliceTask (by decide)).2.2.2.2.2.1
     "Completed"⟩

/-- C4 counterexample: updating task 1 with the single-field map
`id := 2` succeeds (200), but the subsequent fetch of id 1 answers 404
rather than returning the updated task — the merge overwrote the lookup
key. -/
theorem update_id_field_breaks_fetch :
    (putTask oneTaskState 1 { id := some 2 }).1.status = 200 ∧
    (getTask (putTask oneTaskState 1 { id := some 2 }).2 1).1.status = 404 := by
  decide

/-! ## C9: delete, then fetch / delete again -/

theorem deleteList_noMatch (ts : List Task) (i : Int)
    (h : ∀ u ∈ ts, (u.id == i) = false) : deleteList ts i = (false, ts) := by
  induction ts with
  | nil => rfl
  | cons a l ih =>
    rw [deleteList, h a (by simp)]
    simp only [Bool.false_eq_true, if_false]
    rw [ih fun u hu => h u (List.mem_cons_of_mem a hu)]

theorem delete_unique_spec :
    ∀ (ts : List Task) (i : Int), ts.countP (fun t => t.id == i) = 1 →
      ∃ pre t post, ts = pre ++ t :: post ∧ (t.id == i) = true ∧
        (∀ u ∈ pre, (u.id == i) = false) ∧ (∀ u ∈ post, (u.id == i) = false) ∧
        deleteList ts i = (true, pre ++ post) := by
  intro ts
  induction ts with
  | nil => intro i h; exact absurd h (by simp)
  | cons hd tl ih =>
    intro i h
    cases hh : (hd.id == i) with
    | true =>
      rw [List.countP_cons_of_pos (fun t : Task => t.id == i) tl (by exact hh)] at h
      have htl : tl.countP (fun t => t.id == i) = 0 := by omega
      refine ⟨[], hd, tl, rfl, hh, by simp, ?_, ?_⟩
      · intro u hu
        have := List.countP_eq_zero.1 htl u hu
        simpa using this
      · rw [deleteList, hh]
        rfl
    | false =>
      rw [List.countP_cons_of_neg (fun t : Task => t.id == i) tl (by simp [hh])] at h
      obtain ⟨pre, t, post, hdec, hti, hpre, hpost, hdel⟩ := ih i h
      refine ⟨hd :: pre, t, post, by rw [hdec]; rfl, hti, ?_, hpost, ?_⟩
      · intro u hu
        rcases List.mem_cons.1 hu with rfl | hu
        · exact hh
        · exact hpre u hu
      · rw [deleteList, hh]
        simp only [Bool.false_eq_true, if_false]
        rw [hdel]
        rfl

/-- C9 (amended): on a registry holding exactly one task with id `i`,
`DELETE /task/:id` answers 204 with no body and removes exactly that
task (the rest of the registry, in order, is untouched); a subsequent
fetch of id `i` answers 404, and a second delete answers 404 and leaves
the registry unchanged.  (With duplicate ids — reachable after a delete,
see C1 — only the first copy is removed and the fetch still succeeds:
see the counterexample.) -/
theorem delete_then_fetch_404 (s : SysState) (i : Int)
    (h : s.tasks.countP (fun t => t.id == i) = 1) :
    (deleteTask s i).1 = { status := 204, body := .empty } ∧
    (∃ pre t post, s.tasks = pre ++ t :: post ∧ (t.id == i) = true ∧
        ((deleteTask s i).2).tasks = pre ++ post) ∧
    (getTask ((deleteTask s i).2) i).1 =
      { status := 404, body := .msg "Task not found" } ∧
    deleteTask ((deleteTask s i).2) i =
      ({ status := 404, body := .msg "Task not found" }, (deleteTask s i).2) := by
  obtain ⟨pre, t, post, hdec, hti, hpre, hpost, hdel⟩ :=
    delete_unique_spec s.tasks i h
  have hdelT : deleteTask s i =
      ({ status := 204, body := .empty }, { s with tasks := pre ++ post }) := by
    rw [deleteTask, hdel]
  have hrest : ∀ u ∈ pre ++ post, (u.id == i) = false := by
    intro u hu
    rcases List.mem_append.1 hu with hu | hu
    · exact hpre u hu
    · exact hpost u hu
  have hfind : findTask (pre ++ post) i = none := noMatch_findTask _ i hrest
  have hdel2 : deleteList (pre ++ post) i = (false, pre ++ post) :=
    deleteList_noMatch _ i hrest
  refine ⟨by rw [hdelT], ⟨pre, t, post, hdec, hti, by rw [hdelT]⟩, ?_, ?_⟩
  · rw [hdelT]
    rw [getTask_404 { s with tasks := pre ++ post } i hfind]
  · rw [hdelT]
    exact deleteTask_404 { s with tasks := pre ++ post } i hdel2

/-- Witness for C9 on the one-task registry. -/
theorem delete_then_fetch_404_witness :
    (deleteTask oneTaskState 1).1 = { status := 204, body := .empty } ∧
    (∃ pre t post, oneTaskState.tasks = pre ++ t :: post ∧ (t.id == (1 : Int)) = true ∧
        ((deleteTask oneTaskState 1).2).tasks = pre ++ post) ∧
    (getTask ((deleteTask oneTaskState 1).2) 1).1 =
      { status := 404, body := .msg "Task not found" } ∧
    deleteTask ((deleteTask oneTaskState 1).2) 1 =
      ({ status := 404, body := .msg "Task not found" }, (deleteTask oneTaskState 1).2) :=
  delete_then_fetch_404 oneTaskState 1 (by decide)

/-- C9 counterexample: the reachable registry [[dupOps]] holds two tasks
with id 2; deleting id 2 answers 204 but removes only the first copy, so
the subsequent fetch of id 2 answers 200 — not the claimed 404. -/
theorem delete_duplicate_id_cex :
    (findTask (runOps dupOps).tasks 2).isSome = true ∧
    (deleteTask (runOps dupOps) 2).1.status = 204 ∧
    (getTask ((deleteTask (runOps dupOps) 2).2) 2).1.status = 200 := by
  decide

end TaskServer
